import Mathlib

/-!
Shallow embedding of the AIR-assist client (React Native + Kotlin sources).

The embedding covers the parts of the program the claims C1..C10 are about:

* `src/context/AppContext.js` — conversation log, offline message queue,
  drain loop (`addMessage`, `sendAudioToServer`, `processPendingMessages`,
  `clearConversation`);
* `BluetoothContext` — device history, connect/disconnect
  (`saveDeviceToHistory`, `connectToDevice`, `disconnectFromDevice`);
* `WebSocketService` — keepalive (`handleMessage`, `startPingInterval`
  tick, `disconnect`/`connect`);
* `AudioService.startSilenceDetection` — timer-based silence detection;
* `AudioModule.kt` — `convertPcmToWavBase64` WAV container construction.

Time is modelled as `Nat` milliseconds passed explicitly where the source
reads `Date.now()`.  External effects (socket sends, BLE radio results)
are modelled as observation logs or boolean oracles passed as arguments.
-/

namespace AirAssist

/-! ## AppContext (src/context/AppContext.js) -/

/-- Message record as built by `addMessage`:
`{ id, text, isUser, type, timestamp }`.  (The source message objects carry
no `deliveryState` field.) -/
structure Message where
  id : String
  text : String
  isUser : Bool
  type : String
  timestamp : Nat
deriving Repr, DecidableEq

/-- Pending (offline) outbound entry as stored by `sendAudioToServer` /
`sendTextToServer`: audio entries are `{audioBase64, transcription,
timestamp, messageId}`, text entries are `{text, isText: true, timestamp,
messageId}`.  Absent JS fields are modelled by the defaults (absent
`isText` is falsy). -/
structure PendingMessage where
  isText : Bool := false
  audioBase64 : String := ""
  transcription : String := ""
  text : String := ""
  timestamp : Nat
  messageId : String
deriving Repr, DecidableEq

/-- The slice of the persisted settings that the send paths read. -/
structure Settings where
  userId : Option String
  userName : String
  aiVoice : String
deriving Repr, DecidableEq

/-- Outbound wire message handed to `WebSocketService.send`
(the JSON object before stringification). -/
structure WireMessage where
  type : String
  audio : String := ""
  transcription : String := ""
  text : String := ""
  userId : String
  userName : String
  voice : String
  timestamp : Nat
  messageId : String
deriving Repr, DecidableEq

/-- State held by the `AppProvider` component.  `outbox` is the
observation log of every wire message passed to `WebSocketService.send`
(in call order). -/
structure AppState where
  wsConnected : Bool
  settings : Settings
  messages : List Message
  pendingMessages : List PendingMessage
  isProcessingAudio : Bool
  isSpeaking : Bool
  outbox : List WireMessage
deriving Repr, DecidableEq

/-- Source `addMessage(text, isUser, type = 'normal', id = Date.now().toString())`:
appends one message to the log and returns its id.  `now` stands for the
`Date.now()` reading; the default id is the stringified clock value,
exactly as in the source. -/
def addMessage (st : AppState) (now : Nat) (text : String) (isUser : Bool)
    (ty : String := "normal") (id : String := toString now) :
    AppState × String :=
  let newMessage : Message :=
    { id := id, text := text, isUser := isUser, type := ty, timestamp := now }
  ({ st with messages := st.messages ++ [newMessage] }, newMessage.id)

/-- Source `sendAudioToServer(audioBase64, transcription = '')`.
When connected the wire message goes to the socket (`outbox`); otherwise
the payload is appended to `pendingMessages`, the user message text is
rewritten, and a system notice is appended.  (Apostrophes in the source
string literals are elided.) -/
def sendAudioToServer (st : AppState) (now : Nat) (audioBase64 : String)
    (transcription : String := "") : AppState × Option String :=
  let st1 := { st with isProcessingAudio := true }
  let displayText := if transcription = "" then "Listening..." else transcription
  let p := addMessage st1 now displayText true
  let st2 := p.1
  let userMessageId := p.2
  if st2.wsConnected then
    let wire : WireMessage :=
      { type := "audioMessage", audio := audioBase64,
        transcription := transcription,
        userId := st2.settings.userId.getD "guest",
        userName := st2.settings.userName, voice := st2.settings.aiVoice,
        timestamp := now, messageId := userMessageId }
    ({ st2 with outbox := st2.outbox ++ [wire] }, some userMessageId)
  else
    let pending : PendingMessage :=
      { audioBase64 := audioBase64, transcription := transcription,
        timestamp := now, messageId := userMessageId }
    let st3 := { st2 with pendingMessages := st2.pendingMessages ++ [pending] }
    let st4 :=
      { st3 with messages := st3.messages.map (fun m =>
          if m.id = userMessageId then
            { m with text := if transcription = "" then
                "Message saved for when connection is restored"
              else transcription }
          else m) }
    let st5 := (addMessage st4 now
      "Im currently offline. Ill process your message when I reconnect."
      false "system").1
    ({ st5 with isProcessingAudio := false }, some userMessageId)

/-- Wire message that `processPendingMessages` builds from the head
pending entry (text entries when `isText`, audio entries otherwise). -/
def pendingWire (s : Settings) (p : PendingMessage) : WireMessage :=
  if p.isText then
    { type := "textMessage", text := p.text,
      userId := s.userId.getD "guest", userName := s.userName,
      voice := s.aiVoice, timestamp := p.timestamp, messageId := p.messageId }
  else
    { type := "audioMessage", audio := p.audioBase64,
      transcription := p.transcription,
      userId := s.userId.getD "guest", userName := s.userName,
      voice := s.aiVoice, timestamp := p.timestamp, messageId := p.messageId }

/-- Source `processPendingMessages()`: bails out unless connected and the
queue is non-empty; otherwise appends the system notice, removes exactly
the head pending entry, hands its wire message to `WebSocketService.send`,
and raises the processing flag.  `_sendOk` is the boolean that
`WebSocketService.send` returns; the source discards that value, so the
parameter is (faithfully) unused. -/
def processPendingMessages (st : AppState) (now : Nat) (_sendOk : Bool) :
    AppState :=
  if ¬ st.wsConnected ∨ st.pendingMessages.isEmpty then st
  else
    match st.pendingMessages with
    | [] => st
    | firstPending :: remainingPending =>
      let st1 := (addMessage st now "Processing your offline messages..."
        false "system").1
      let st2 := { st1 with pendingMessages := remainingPending }
      let st3 := { st2 with
        outbox := st2.outbox ++ [pendingWire st2.settings firstPending] }
      { st3 with isProcessingAudio := true }

/-- Repeated invocation of the drain (the `useEffect` hook re-runs
`processPendingMessages` whenever `pendingMessages` changes while
connected). -/
def drainN (now : Nat) (ok : Bool) : Nat → AppState → AppState
  | 0, st => st
  | n + 1, st => drainN now ok n (processPendingMessages st now ok)

/-- A sequence of `sendAudioToServer` calls, each given its clock reading
and payload `(now, audioBase64, transcription)`. -/
def enqueueAll (st : AppState) : List (Nat × String × String) → AppState
  | [] => st
  | x :: rest => enqueueAll (sendAudioToServer st x.1 x.2.1 x.2.2).1 rest

/-- Pending entry produced by an offline `sendAudioToServer (now, audio,
transcription)` call. -/
def pendingOfAudio (x : Nat × String × String) : PendingMessage :=
  { audioBase64 := x.2.1, transcription := x.2.2,
    timestamp := x.1, messageId := toString x.1 }

/-- Source `clearConversation()`: `setMessages([])`. -/
def clearConversation (st : AppState) : AppState :=
  { st with messages := [] }

/-! ## BluetoothContext (device history, connect, disconnect) -/

/-- Bluetooth device record `{ id, name, rssi }`. -/
structure Device where
  id : String
  name : String
  rssi : Int
deriving Repr, DecidableEq

/-- The `BT_CONNECTION_STATES` constants. -/
inductive BtConnState
  | disconnected
  | connecting
  | connected
  | scanning
  | error
deriving Repr, DecidableEq

/-- State held by the `BluetoothProvider` component. -/
structure BtState where
  isBluetoothEnabled : Bool
  isInit : Bool
  isScanning : Bool
  connectionState : BtConnState
  errMsg : Option String
  discoveredDevices : List Device
  connectedDevice : Option Device
  previousDevices : List Device
deriving Repr, DecidableEq

/-- Source `saveDeviceToHistory(device)`: filter out the same id, prepend,
keep only the 10 most recent. -/
def saveDeviceToHistory (st : BtState) (device : Device) : BtState :=
  let updatedDevices := st.previousDevices.filter (fun d => d.id ≠ device.id)
  let newDevicesList := (device :: updatedDevices).take 10
  { st with previousDevices := newDevicesList }

/-- Source `stopScan()` (success path of `BleManager.stopScan`): clears the
scanning flag and restores the connection state from `connectedDevice`. -/
def stopScan (st : BtState) : BtState :=
  if ¬ st.isScanning then st
  else
    { st with
      isScanning := false
      connectionState :=
        if st.connectedDevice.isSome then .connected else .disconnected }

/-- Source `connectToDevice(deviceId)`.  `radioOk` is the oracle for the
external `BleManager.connect` / `retrieveServices` calls succeeding.  The
initial availability guard throws outside the try block (no state change);
an error inside the try is caught, recording the message and setting the
ERROR connection state. -/
def connectToDevice (st : BtState) (deviceId : String) (radioOk : Bool) :
    BtState × Except String Device :=
  if ¬ (st.isBluetoothEnabled ∧ st.isInit) then
    (st, .error "Bluetooth is not available")
  else
    let st1 := { st with connectionState := .connecting, errMsg := none }
    let st2 := if st1.isScanning then stopScan st1 else st1
    match (st2.discoveredDevices ++ st2.previousDevices).find?
        (fun d => d.id = deviceId) with
    | none =>
      ({ st2 with
          errMsg := some "Failed to connect to device: Device not found",
          connectionState := .error },
        .error "Device not found")
    | some device =>
      if radioOk then
        let st3 := { st2 with
          connectedDevice := some device
          connectionState := .connected }
        (saveDeviceToHistory st3 device, .ok device)
      else
        ({ st2 with
            errMsg := some "Failed to connect to device: connect failed",
            connectionState := .error },
          .error "connect failed")

/-- Source `disconnectFromDevice(deviceId)`.  The guard makes the call a
no-op unless `deviceId` is truthy and names the currently connected
device.  `radioOk` is the oracle for `BleManager.disconnect`; both the
success branch and the catch branch clear `connectedDevice` and set the
DISCONNECTED state (the catch branch additionally records an error
message). -/
def disconnectFromDevice (st : BtState) (deviceId : String) (radioOk : Bool) :
    BtState :=
  if deviceId = "" ∨ st.connectedDevice.map Device.id ≠ some deviceId then st
  else if radioOk then
    { st with connectedDevice := none, connectionState := .disconnected }
  else
    { st with
      errMsg := some "Failed to disconnect from device"
      connectedDevice := none
      connectionState := .disconnected }

/-- An externally driven connect or disconnect call, with its radio
oracle. -/
inductive BtEvent
  | connect (deviceId : String) (radioOk : Bool)
  | disconnect (deviceId : String) (radioOk : Bool)
deriving Repr, DecidableEq

/-- One event applied to the Bluetooth state. -/
def btStep (st : BtState) : BtEvent → BtState
  | .connect id ok => (connectToDevice st id ok).1
  | .disconnect id ok => disconnectFromDevice st id ok

/-- A sequence of connect/disconnect events. -/
def btRun (st : BtState) : List BtEvent → BtState :=
  List.foldl btStep st

/-- Chronological log of the devices returned by successful connects
during a run. -/
def connectLog (st : BtState) : List BtEvent → List Device
  | [] => []
  | e :: rest =>
    (match e with
      | .connect id ok =>
        match (connectToDevice st id ok).2 with
        | .ok d => [d]
        | .error _ => []
      | .disconnect _ _ => []) ++ connectLog (btStep st e) rest

/-- Most-recently-used view of a most-recent-first device list: keep the
first occurrence of every id.  Specification-side definition used to state
the MRU ordering of the history. -/
def mruOf : List Device → List Device
  | [] => []
  | d :: rest => d :: (mruOf rest).filter (fun x => x.id ≠ d.id)

/-! ## WebSocketService (keepalive, reconnection) -/

/-- Ready state of the underlying `WebSocket` object. -/
inductive SocketReady
  | connectingS
  | openS
  | closedS
deriving Repr, DecidableEq

/-- Frames handed to `socket.send`; the keepalive ping is
`JSON.stringify({type: 'ping'})`. -/
inductive Frame
  | ping
  | data (payload : String)
deriving Repr, DecidableEq

/-- Static state of `WebSocketService`.  `sentFrames` logs every frame
passed to `socket.send`; `delivered` logs the parsed type of every inbound
message handed to `onMessageCallback` (`none` for unparsable data). -/
structure WsState where
  connected : Bool
  connecting : Bool
  socket : Option SocketReady
  url : Option String
  lastPingTime : Option Nat
  reconnectScheduled : Bool
  pingIntervalActive : Bool
  sentFrames : List Frame
  delivered : List (Option String)
deriving Repr, DecidableEq

/-- Source `disconnect()`: clears flags, timers and the socket (the
observation logs are not program state and are kept). -/
def wsDisconnect (st : WsState) : WsState :=
  { st with
    connected := false
    connecting := false
    reconnectScheduled := false
    pingIntervalActive := false
    socket := none }

/-- Source `connect()`: no-op while `connecting` or without a url;
otherwise tears the old connection down and opens a fresh socket in the
CONNECTING ready state. -/
def wsConnect (st : WsState) : WsState :=
  if st.connecting ∨ st.url.isNone then st
  else
    { wsDisconnect st with connecting := true, socket := some .connectingS }

/-- Source `handleMessage(event)`: the message callback always receives
the data; then only a message whose parsed `type` is `'pong'` refreshes
`lastPingTime` (a JSON parse failure is caught after the callback ran).
`msgType` is the parsed `type` field (`none` when parsing fails);
`now` is the `Date.now()` reading. -/
def wsHandleMessage (st : WsState) (msgType : Option String) (now : Nat) :
    WsState :=
  let st1 := { st with delivered := st.delivered ++ [msgType] }
  match msgType with
  | some t => if t = "pong" then { st1 with lastPingTime := some now } else st1
  | none => st1

/-- One firing of the 30000 ms `setInterval` installed by
`startPingInterval()`: while the socket is OPEN it sends a ping, and if
`lastPingTime` is truthy and more than 60000 ms old it tears the
connection down and immediately reconnects. -/
def wsPingTick (st : WsState) (now : Nat) : WsState :=
  if st.socket = some .openS then
    let st1 := { st with sentFrames := st.sentFrames ++ [Frame.ping] }
    match st.lastPingTime with
    | some lp =>
      if lp ≠ 0 ∧ 60000 < now - lp then wsConnect (wsDisconnect st1) else st1
    | none => st1
  else st

/-! ## AudioService.startSilenceDetection (src/services/AudioService.js) -/

/-- Timer evolution of `startSilenceDetection(threshold, callback)`.
Every `'data'` frame clears the pending 2000 ms timer and re-arms it,
without inspecting the frame contents; the callback fires when a timer
deadline elapses before the next frame (while still recording).  Firing
invokes `handleStopRecording`, which stops the recording, so the run ends
at the first fire.  Arguments: the currently armed deadline, the frames as
`(time, energy)` pairs in time order, and the manual stop time.  Returns
the time of the silence callback fire, if any. -/
def silenceFirstFire : Option Nat → List (Nat × Nat) → Nat → Option Nat
  | some d, [], stopT => if d < stopT then some d else none
  | none, [], _ => none
  | some d, f :: rest, stopT =>
    if d ≤ f.1 then some d else silenceFirstFire (some (f.1 + 2000)) rest stopT
  | none, f :: rest, stopT => silenceFirstFire (some (f.1 + 2000)) rest stopT

/-- Silence-callback outcome of a whole recording session under
`startSilenceDetection`.  The `threshold` parameter mirrors the source
signature; the source never reads it (the simplified implementation is
purely timer-based). -/
def startSilenceDetectionFire (_threshold : Nat)
    (frames : List (Nat × Nat)) (stopT : Nat) : Option Nat :=
  silenceFirstFire none frames stopT

/-- Deadline of the timer armed after the final frame: 2000 ms past the
last frame time, or the inherited deadline `d` when no frame arrives.
Specification-side helper for stating when the silence callback fires. -/
def lastDeadline (d : Nat) (frames : List (Nat × Nat)) : Nat :=
  match frames.getLast? with
  | some f => f.1 + 2000
  | none => d

/-! ## AudioModule.kt convertPcmToWavBase64 (WAV container) -/

/-- Kotlin `intToByteArray`: little-endian 32-bit encoding. -/
def intToByteArray (v : Nat) : List Nat :=
  [v % 256, v / 256 % 256, v / 65536 % 256, v / 16777216 % 256]

/-- Kotlin `shortToByteArray`: little-endian 16-bit encoding. -/
def shortToByteArray (v : Nat) : List Nat :=
  [v % 256, v / 256 % 256]

/-- ASCII bytes of `"RIFF"`. -/
def riffTag : List Nat := [82, 73, 70, 70]

/-- ASCII bytes of `"WAVE"`. -/
def waveTag : List Nat := [87, 65, 86, 69]

/-- ASCII bytes of `"fmt "`. -/
def fmtTag : List Nat := [102, 109, 116, 32]

/-- ASCII bytes of `"data"`. -/
def dataTag : List Nat := [100, 97, 116, 97]

/-- The recording sample rate (`SAMPLE_RATE = 44100`, mono 16-bit PCM). -/
def sampleRateConst : Nat := 44100

/-- Kotlin `convertPcmToWavBase64`, up to the final (bijective) base64
encoding: the WAV byte stream written for the captured PCM payload. -/
def convertPcmToWav (pcmData : List Nat) : List Nat :=
  riffTag ++ intToByteArray (pcmData.length + 36) ++ waveTag ++
  fmtTag ++ intToByteArray 16 ++ shortToByteArray 1 ++ shortToByteArray 1 ++
  intToByteArray sampleRateConst ++ intToByteArray (sampleRateConst * 2) ++
  shortToByteArray 2 ++ shortToByteArray 16 ++
  dataTag ++ intToByteArray pcmData.length ++ pcmData

/-- Little-endian 32-bit read. -/
def readU32LE (bs : List Nat) : Nat :=
  match bs with
  | b0 :: b1 :: b2 :: b3 :: _ => b0 + 256 * b1 + 65536 * b2 + 16777216 * b3
  | _ => 0

/-- Little-endian 16-bit read. -/
def readU16LE (bs : List Nat) : Nat :=
  match bs with
  | b0 :: b1 :: _ => b0 + 256 * b1
  | _ => 0

/-- Header fields of a parsed WAV container. -/
structure WavInfo where
  audioFormat : Nat
  numChannels : Nat
  sampleRate : Nat
  bitsPerSample : Nat
  dataLen : Nat
  payload : List Nat
deriving Repr, DecidableEq

/-- Modelled from the spec: the playback path decodes the transportable
clip with an external audio library (out of scope in the source); this
parser reads the standard self-describing container of section 6 of the
spec (format tag, sample rate, channel count, bit depth, payload length,
raw sample payload). -/
def parseWav (bs : List Nat) : Option WavInfo :=
  if bs.take 4 = riffTag ∧ (bs.drop 8).take 4 = waveTag ∧
      (bs.drop 12).take 4 = fmtTag ∧ readU32LE (bs.drop 16) = 16 ∧
      (bs.drop 36).take 4 = dataTag then
    let dataLen := readU32LE (bs.drop 40)
    some
      { audioFormat := readU16LE (bs.drop 20)
        numChannels := readU16LE (bs.drop 22)
        sampleRate := readU32LE (bs.drop 24)
        bitsPerSample := readU16LE (bs.drop 34)
        dataLen := dataLen
        payload := (bs.drop 44).take dataLen }
  else none

/-- Number of 16-bit samples described by a parsed container. -/
def wavSampleCount (i : WavInfo) : Nat :=
  i.dataLen / (i.bitsPerSample / 8)

/-! ## Concrete fixture states used to instantiate the theorems -/

/-- Sample settings. -/
def settingsEx : Settings :=
  { userId := some "u1", userName := "Alice", aiVoice := "default" }

/-- Sample discovered device. -/
def devA : Device := { id := "DE:AD:BE:EF:12:34", name := "AIR-Headset", rssi := -65 }

/-- Second sample device. -/
def devB : Device := { id := "C0:FF:EE:00:00:01", name := "BT Earbuds", rssi := -72 }

/-- Bluetooth state with one discovered device and empty history. -/
def btEx : BtState :=
  { isBluetoothEnabled := true, isInit := true, isScanning := false,
    connectionState := .disconnected, errMsg := none,
    discoveredDevices := [devA], connectedDevice := none,
    previousDevices := [] }

/-- App state that is offline with empty log and queue. -/
def appOfflineEx : AppState :=
  { wsConnected := false, settings := settingsEx, messages := [],
    pendingMessages := [], isProcessingAudio := false, isSpeaking := false,
    outbox := [] }

/-- Sample queued audio entry. -/
def pendEx : PendingMessage :=
  { audioBase64 := "QUJD", transcription := "hi", timestamp := 500,
    messageId := "500" }

/-- User message matching the sample queued entry. -/
def msgEx : Message :=
  { id := "500", text := "hi", isUser := true, type := "normal",
    timestamp := 500 }

/-- App state that is connected with one queued entry and its user
message in the log. -/
def appConnEx : AppState :=
  { wsConnected := true, settings := settingsEx, messages := [msgEx],
    pendingMessages := [pendEx], isProcessingAudio := false,
    isSpeaking := false, outbox := [] }

/-- Open WebSocket session fixture: liveness timestamp 1000. -/
def wsOpenEx : WsState :=
  { connected := true, connecting := false, socket := some .openS,
    url := some "wss://airassist-server.example.com/ws",
    lastPingTime := some 1000, reconnectScheduled := false,
    pingIntervalActive := true, sentFrames := [], delivered := [] }

end AirAssist

namespace AirAssist

/-! ## Helper lemmas -/

/-- Offline `sendAudioToServer` appends exactly one entry to the queue
tail and leaves connectivity, outbox and settings alone. -/
theorem sendAudio_offline (st : AppState) (t : Nat) (a tr : String)
    (h : st.wsConnected = false) :
    (sendAudioToServer st t a tr).1.pendingMessages =
      st.pendingMessages ++ [pendingOfAudio (t, a, tr)] ∧
    (sendAudioToServer st t a tr).1.wsConnected = false ∧
    (sendAudioToServer st t a tr).1.outbox = st.outbox ∧
    (sendAudioToServer st t a tr).1.settings = st.settings := by
  simp [sendAudioToServer, addMessage, pendingOfAudio, h]

/-- A sequence of offline `sendAudioToServer` calls appends its entries in
call order. -/
theorem enqueueAll_offline : ∀ (xs : List (Nat × String × String))
    (st : AppState), st.wsConnected = false →
    (enqueueAll st xs).pendingMessages =
      st.pendingMessages ++ xs.map pendingOfAudio ∧
    (enqueueAll st xs).wsConnected = false ∧
    (enqueueAll st xs).outbox = st.outbox ∧
    (enqueueAll st xs).settings = st.settings := by
  intro xs
  induction xs with
  | nil => intro st h; simp [enqueueAll, h]
  | cons x rest ih =>
    intro st h
    obtain ⟨hp, hw, ho, hs⟩ := sendAudio_offline st x.1 x.2.1 x.2.2 h
    obtain ⟨ihp, ihw, iho, ihs⟩ := ih _ hw
    refine ⟨?_, ihw, by rw [enqueueAll, iho, ho], by rw [enqueueAll, ihs, hs]⟩
    rw [enqueueAll, ihp, hp]
    simp

/-- One drain invocation on a connected state with a non-empty queue:
the head entry is removed, its wire message is sent, and the fixed
processing notice is appended. -/
theorem processPending_cons (st : AppState) (now : Nat) (ok : Bool)
    (p : PendingMessage) (rest : List PendingMessage)
    (hconn : st.wsConnected = true) (hq : st.pendingMessages = p :: rest) :
    processPendingMessages st now ok =
      { st with
        messages := st.messages ++
          [{ id := toString now,
             text := "Processing your offline messages...",
             isUser := false, type := "system", timestamp := now }]
        pendingMessages := rest
        outbox := st.outbox ++ [pendingWire st.settings p]
        isProcessingAudio := true } := by
  simp [processPendingMessages, hconn, hq, addMessage]

/-- Repeated drains on a connected state send the first `n` queue entries
in order and leave the rest. -/
theorem drain_connected (now : Nat) (ok : Bool) :
    ∀ (n : Nat) (st : AppState), st.wsConnected = true →
    (drainN now ok n st).pendingMessages = st.pendingMessages.drop n ∧
    (drainN now ok n st).outbox =
      st.outbox ++ (st.pendingMessages.take n).map (pendingWire st.settings) ∧
    (drainN now ok n st).wsConnected = true ∧
    (drainN now ok n st).settings = st.settings := by
  intro n
  induction n with
  | zero => intro st h; simp [drainN, h]
  | succ n ih =>
    intro st h
    cases hq : st.pendingMessages with
    | nil =>
      have hstep : processPendingMessages st now ok = st := by
        simp [processPendingMessages, hq]
      have := ih st h
      simp only [drainN, hstep]
      simpa [hq] using this
    | cons p rest =>
      have hstep := processPending_cons st now ok p rest h hq
      obtain ⟨ihp, iho, ihw, ihs⟩ := ih (processPendingMessages st now ok)
        (by rw [hstep]; exact h)
      rw [hstep] at ihp iho ihw ihs
      simp only [drainN, hstep] at *
      refine ⟨by simpa [hq] using ihp, ?_, ihw, ihs⟩
      rw [iho]
      simp [hq]

/-- The timer evolution never inspects frame energies: runs with the
same frame times coincide. -/
theorem silenceFirstFire_times_only :
    ∀ (fr1 fr2 : List (Nat × Nat)) (d : Option Nat) (stopT : Nat),
    fr1.map Prod.fst = fr2.map Prod.fst →
    silenceFirstFire d fr1 stopT = silenceFirstFire d fr2 stopT := by
  intro fr1
  induction fr1 with
  | nil =>
    intro fr2 d stopT h
    cases fr2 with
    | nil => rfl
    | cons g r2 => simp at h
  | cons f rest ih =>
    intro fr2 d stopT h
    cases fr2 with
    | nil => simp at h
    | cons g r2 =>
      simp only [List.map_cons, List.cons.injEq] at h
      cases d with
      | none =>
        simp only [silenceFirstFire, h.1]
        exact ih r2 _ stopT h.2
      | some d' =>
        simp only [silenceFirstFire, h.1]
        split <;> [rfl; exact ih r2 _ stopT h.2]

/-- Helper: pushing the armed deadline through a cons. -/
theorem lastDeadline_cons (d : Nat) (f : Nat × Nat)
    (rest : List (Nat × Nat)) :
    lastDeadline d (f :: rest) = lastDeadline (f.1 + 2000) rest := by
  cases rest with
  | nil => simp [lastDeadline]
  | cons g t =>
    simp only [lastDeadline, List.getLast?_cons_cons]
    cases hgl : (g :: t).getLast? with
    | none =>
      rw [List.getLast?_eq_none_iff] at hgl
      exact absurd hgl (by simp)
    | some x => rfl

/-- When every frame arrives before the pending deadline (no 2000 ms gap
inside the session), the timer fires exactly at the deadline armed by the
final frame, provided that deadline precedes the manual stop. -/
theorem silenceFirstFire_chain :
    ∀ (frames : List (Nat × Nat)) (d stopT : Nat),
    (∀ f, frames.head? = some f → f.1 < d) →
    List.Chain' (fun a b : Nat × Nat => b.1 < a.1 + 2000) frames →
    silenceFirstFire (some d) frames stopT =
      if lastDeadline d frames < stopT then some (lastDeadline d frames)
      else none := by
  intro frames
  induction frames with
  | nil => intro d stopT _ _; simp [silenceFirstFire, lastDeadline]
  | cons f rest ih =>
    intro d stopT hhead hchain
    have hfd : ¬ d ≤ f.1 := Nat.not_le.mpr (hhead f rfl)
    have hh2 : ∀ g, rest.head? = some g → g.1 < f.1 + 2000 := by
      intro g hg
      cases rest with
      | nil => simp at hg
      | cons g' r' =>
        rw [List.chain'_cons] at hchain
        simp only [List.head?_cons, Option.some.injEq] at hg
        rw [← hg]
        exact hchain.1
    have hc2 : List.Chain' (fun a b : Nat × Nat => b.1 < a.1 + 2000) rest :=
      List.Chain'.tail hchain
    rw [lastDeadline_cons]
    simp only [silenceFirstFire, hfd, if_false, reduceIte]
    exact ih (f.1 + 2000) stopT hh2 hc2

/-- A list whose mapped ids are nodup holds at most one element with any
given id. -/
theorem countP_id_le_one (L : List Device) (a : String)
    (h : (L.map Device.id).Nodup) :
    L.countP (fun x => x.id = a) ≤ 1 := by
  induction L with
  | nil => simp
  | cons x rest ih =>
    simp only [List.map_cons, List.nodup_cons] at h
    by_cases hx : x.id = a
    · have hzero : rest.countP (fun y => y.id = a) = 0 := by
        rw [List.countP_eq_zero]
        intro y hy
        simp only [decide_eq_true_eq]
        intro hya
        exact h.1 (by rw [hx, ← hya]; exact List.mem_map_of_mem Device.id hy)
      simp [List.countP_cons, hx, hzero]
    · simpa [List.countP_cons, hx] using ih h.2

/-- Filtering away a single id removes at most one element. -/
theorem length_filter_ge : ∀ (l : List Device) (a : String),
    l.countP (fun x => x.id = a) ≤ 1 →
    l.length - 1 ≤ (l.filter (fun x => x.id ≠ a)).length := by
  intro l a
  induction l with
  | nil => simp
  | cons x rest ih =>
    intro hcount
    by_cases hx : x.id = a
    · have hzero : rest.countP (fun y => y.id = a) = 0 := by
        rw [List.countP_cons, if_pos (by simpa using hx)] at hcount
        omega
      have hall : rest.filter (fun y => y.id ≠ a) = rest := by
        rw [List.filter_eq_self]
        intro y hy
        rw [List.countP_eq_zero] at hzero
        simpa using hzero y hy
      rw [List.filter_cons_of_neg (by simpa using hx), hall]
      simp
    · have hrest : rest.countP (fun y => y.id = a) ≤ 1 := by
        rw [List.countP_cons, if_neg (by simpa using hx)] at hcount
        omega
      have := ih hrest
      rw [List.filter_cons_of_pos (by simpa using hx)]
      simp only [List.length_cons]
      omega

/-- On an id-nodup list, truncating to 10 before filtering one id away
does not change the first nine filtered elements. -/
theorem filter_take_eq (L : List Device) (d : Device)
    (h : (L.map Device.id).Nodup) :
    ((L.take 10).filter (fun x => x.id ≠ d.id)).take 9 =
      (L.filter (fun x => x.id ≠ d.id)).take 9 := by
  by_cases hlen : L.length ≤ 10
  · rw [List.take_of_length_le hlen]
  · have hpre : (L.take 10).filter (fun x => x.id ≠ d.id) <+:
        L.filter (fun x => x.id ≠ d.id) :=
      (List.take_prefix 10 L).filter _
    obtain ⟨t, ht⟩ := hpre
    have hcount : (L.take 10).countP (fun x => x.id = d.id) ≤ 1 := by
      calc (L.take 10).countP (fun x => x.id = d.id)
          ≤ L.countP (fun x => x.id = d.id) :=
            (List.take_sublist 10 L).countP_le _
        _ ≤ 1 := countP_id_le_one L d.id h
    have hlen10 : (L.take 10).length = 10 := by
      rw [List.length_take]
      omega
    have hlenfil :
        9 ≤ ((L.take 10).filter (fun x => x.id ≠ d.id)).length := by
      have := length_filter_ge (L.take 10) d.id hcount
      omega
    rw [← ht, List.take_append_of_le_length hlenfil]

/-- The bounded history update commutes with the 10-truncation of an
id-nodup source list. -/
theorem save_mru (L : List Device) (d : Device)
    (h : (L.map Device.id).Nodup) :
    (d :: (L.take 10).filter (fun x => x.id ≠ d.id)).take 10 =
      (d :: L.filter (fun x => x.id ≠ d.id)).take 10 := by
  rw [List.take_succ_cons, List.take_succ_cons, filter_take_eq L d h]

/-- An MRU view has pairwise distinct ids. -/
theorem mruOf_nodup : ∀ L : List Device,
    ((mruOf L).map Device.id).Nodup := by
  intro L
  induction L with
  | nil => simp [mruOf]
  | cons d rest ih =>
    simp only [mruOf, List.map_cons, List.nodup_cons]
    constructor
    · intro hmem
      obtain ⟨x, hx, hxid⟩ := List.mem_map.mp hmem
      have := (List.mem_filter.mp hx).2
      simp only [decide_eq_true_eq] at this
      exact this hxid
    · exact ((List.filter_sublist _).map Device.id).nodup ih

/-- Disconnecting never touches the device history. -/
theorem disconnect_prev (st : BtState) (id : String) (ok : Bool) :
    (disconnectFromDevice st id ok).previousDevices =
      st.previousDevices := by
  unfold disconnectFromDevice
  split
  · rfl
  · split <;> rfl

/-- Outcome analysis of `connectToDevice` on the history: either the call
does not return a device and the history is untouched, or it returns a
device that is moved to the history front with truncation to 10. -/
theorem connect_prev_cases (st : BtState) (id : String) (ok : Bool) :
    ((connectToDevice st id ok).1.previousDevices = st.previousDevices ∧
      ∀ d, (connectToDevice st id ok).2 ≠ Except.ok d) ∨
    (∃ d, (connectToDevice st id ok).2 = Except.ok d ∧
      (connectToDevice st id ok).1.previousDevices =
        (d :: st.previousDevices.filter (fun x => x.id ≠ d.id)).take 10) := by
  by_cases hg : st.isBluetoothEnabled ∧ st.isInit
  · by_cases hs : st.isScanning
    · cases hf : (st.discoveredDevices ++ st.previousDevices).find?
          (fun d => d.id = id) with
      | none =>
        left
        simp [connectToDevice, stopScan, hg, hs, hf]
      | some device =>
        cases ok with
        | true =>
          right
          exact ⟨device, by simp [connectToDevice, stopScan, hg, hs, hf],
            by simp [connectToDevice, stopScan, saveDeviceToHistory, hg,
              hs, hf]⟩
        | false =>
          left
          simp [connectToDevice, stopScan, hg, hs, hf]
    · cases hf : (st.discoveredDevices ++ st.previousDevices).find?
          (fun d => d.id = id) with
      | none =>
        left
        simp [connectToDevice, hg, hs, hf]
      | some device =>
        cases ok with
        | true =>
          right
          exact ⟨device, by simp [connectToDevice, hg, hs, hf],
            by simp [connectToDevice, saveDeviceToHistory, hg, hs, hf]⟩
        | false =>
          left
          simp [connectToDevice, hg, hs, hf]
  · left
    simp [connectToDevice, hg]

/-- Running events from a history that is the 10-truncated MRU view of
some connect record keeps the history equal to the 10-truncated MRU view
of the extended record. -/
theorem btRun_mru : ∀ (evts : List BtEvent) (st : BtState)
    (r : List Device), st.previousDevices = (mruOf r).take 10 →
    (btRun st evts).previousDevices =
      (mruOf ((connectLog st evts).reverse ++ r)).take 10 := by
  intro evts
  induction evts with
  | nil =>
    intro st r h
    simpa [btRun, connectLog] using h
  | cons e rest ih =>
    intro st r h
    have hrun : btRun st (e :: rest) = btRun (btStep st e) rest := rfl
    cases e with
    | disconnect id ok =>
      have hprev : (btStep st (.disconnect id ok)).previousDevices =
          st.previousDevices := disconnect_prev st id ok
      have hlog : connectLog st (.disconnect id ok :: rest) =
          connectLog (btStep st (.disconnect id ok)) rest := by
        simp [connectLog]
      rw [hrun, hlog]
      exact ih _ r (hprev.trans h)
    | connect id ok =>
      rcases connect_prev_cases st id ok with ⟨hprev, hnot⟩ | ⟨d, hok, hprev⟩
      · have hprev' : (btStep st (.connect id ok)).previousDevices =
            st.previousDevices := hprev
        have hlog : connectLog st (.connect id ok :: rest) =
            connectLog (btStep st (.connect id ok)) rest := by
          simp only [connectLog]
          cases hc : (connectToDevice st id ok).2 with
          | ok d => exact absurd hc (hnot d)
          | error e => simp
        rw [hrun, hlog]
        exact ih _ r (hprev'.trans h)
      · have hlog : connectLog st (.connect id ok :: rest) =
            d :: connectLog (btStep st (.connect id ok)) rest := by
          simp only [connectLog, hok]
          rfl
        have hnew : (btStep st (.connect id ok)).previousDevices =
            (mruOf (d :: r)).take 10 := by
          show (connectToDevice st id ok).1.previousDevices = _
          rw [hprev, h, mruOf]
          exact save_mru (mruOf r) d (mruOf_nodup r)
        rw [hrun, hlog]
        have hres := ih (btStep st (.connect id ok)) (d :: r) hnew
        rw [hres]
        congr 2
        rw [List.reverse_cons, List.append_assoc, List.singleton_append]

/-! ## Claim theorems -/

/-- Claim C9: clearing the conversation replaces the message log with the
empty log and leaves the connection flag (Session), the settings, the
offline queue, the processing flags and the outbox unchanged.  (The
peripheral Device state lives in the separate Bluetooth component, which
`clearConversation` cannot reach.) -/
theorem C9_clear_conversation_frame (st : AppState) :
    (clearConversation st).messages = [] ∧
    (clearConversation st).wsConnected = st.wsConnected ∧
    (clearConversation st).settings = st.settings ∧
    (clearConversation st).pendingMessages = st.pendingMessages ∧
    (clearConversation st).isProcessingAudio = st.isProcessingAudio ∧
    (clearConversation st).isSpeaking = st.isSpeaking ∧
    (clearConversation st).outbox = st.outbox :=
  ⟨rfl, rfl, rfl, rfl, rfl, rfl, rfl⟩

/-- Claim C10: disconnecting the currently connected device always leaves
no connected device and the DISCONNECTED state, even when the radio
disconnect fails (`radioOk = false` drives the catch branch); the device
history is untouched. -/
theorem C10_disconnect_clears_even_on_radio_failure (st : BtState)
    (d : Device) (deviceId : String) (ok : Bool)
    (hconn : st.connectedDevice = some d) (hid : d.id = deviceId)
    (hne : deviceId ≠ "") :
    (disconnectFromDevice st deviceId ok).connectedDevice = none ∧
    (disconnectFromDevice st deviceId ok).connectionState = .disconnected ∧
    (disconnectFromDevice st deviceId ok).previousDevices =
      st.previousDevices := by
  cases ok <;>
    simp [disconnectFromDevice, hconn, hid, hne]

/-- Witness for C10 at a concrete state, with the radio call failing. -/
theorem C10_witness :
    (disconnectFromDevice { btEx with connectedDevice := some devA }
        "DE:AD:BE:EF:12:34" false).connectedDevice = none ∧
    (disconnectFromDevice { btEx with connectedDevice := some devA }
        "DE:AD:BE:EF:12:34" false).connectionState = .disconnected := by
  have h := C10_disconnect_clears_even_on_radio_failure
    { btEx with connectedDevice := some devA } devA "DE:AD:BE:EF:12:34"
    false rfl rfl (by decide)
  exact ⟨h.1, h.2.1⟩

/-- Counterexample to claim C6 as stated: `connectToDevice` on an unknown
id rejects with the device-not-found error, but the connection state ends
in ERROR, not DISCONNECTED. -/
theorem C6_counterexample :
    (connectToDevice btEx "unknown-id" true).2 =
      Except.error "Device not found" ∧
    (connectToDevice btEx "unknown-id" true).1.connectionState =
      BtConnState.error ∧
    BtConnState.error ≠ BtConnState.disconnected :=
  ⟨rfl, rfl, by decide⟩

/-- Claim C6 (amended): connecting to an id that is neither discovered nor
in the history rejects with "Device not found" and leaves the connection
state in ERROR — not stuck in CONNECTING — and the connected device
unchanged. -/
theorem C6_unknown_device_connect (st : BtState) (deviceId : String)
    (ok : Bool) (hen : st.isBluetoothEnabled = true)
    (hinit : st.isInit = true)
    (hunknown : ∀ d ∈ st.discoveredDevices ++ st.previousDevices,
      d.id ≠ deviceId) :
    (connectToDevice st deviceId ok).2 = .error "Device not found" ∧
    (connectToDevice st deviceId ok).1.connectionState = .error ∧
    (connectToDevice st deviceId ok).1.connectionState ≠ .connecting ∧
    (connectToDevice st deviceId ok).1.connectedDevice =
      st.connectedDevice := by
  have hfind : ∀ l : List Device, (∀ d ∈ l, d.id ≠ deviceId) →
      l.find? (fun d => d.id = deviceId) = none := by
    intro l hl
    rw [List.find?_eq_none]
    intro d hd
    simpa using hl d hd
  cases hs : st.isScanning <;>
    simp [connectToDevice, stopScan, hen, hinit, hs,
      hfind _ hunknown]

/-- Witness for C6 at a concrete state. -/
theorem C6_witness :
    (connectToDevice btEx "unknown-id" true).1.connectionState =
      BtConnState.error ∧
    (connectToDevice btEx "unknown-id" true).1.connectionState ≠
      BtConnState.connecting := by
  have h := C6_unknown_device_connect btEx "unknown-id" true rfl rfl
    (by decide)
  exact ⟨h.2.1, h.2.2.1⟩

/-- Claim C8 is right and the code is wrong: both messages appended by an
offline `sendAudioToServer` call default their id to the same
`Date.now().toString()` reading, so two appends within one millisecond
collide.  At clock reading 1000 the user message and the system notice
both get id "1000". -/
theorem C8_duplicate_ids :
    ((sendAudioToServer appOfflineEx 1000 "QUJD" "hello").1.messages.map
      Message.id) = ["1000", "1000"] ∧
    ¬ ((sendAudioToServer appOfflineEx 1000 "QUJD" "hello").1.messages.map
      Message.id).Nodup := by
  decide

/-- Counterexample to claim C5 as stated: draining the concrete queue
produces the very same state whether the send succeeds or fails — the
dequeued entry is gone and the log gains only the fixed processing
notice, so a failed send is silently dropped and no deliveryState ever
becomes `failed`. -/
theorem C5_counterexample :
    processPendingMessages appConnEx 700 false =
      processPendingMessages appConnEx 700 true ∧
    (processPendingMessages appConnEx 700 false).pendingMessages = [] ∧
    (processPendingMessages appConnEx 700 false).messages.map Message.text =
      ["hi", "Processing your offline messages..."] := by
  refine ⟨rfl, by rfl, by rfl⟩

/-- Claim C5 (amended): an entry dequeued by a drain invocation is removed
from the queue and never re-enqueued, and the drain outcome is identical
whether its send succeeds or fails — the source discards the send result,
records no failed deliveryState, and silently drops a failed entry. -/
theorem C5_failed_send_silently_dropped (st : AppState) (now : Nat)
    (p : PendingMessage) (rest : List PendingMessage)
    (hconn : st.wsConnected = true) (hq : st.pendingMessages = p :: rest) :
    (∀ ok ok' : Bool, processPendingMessages st now ok =
      processPendingMessages st now ok') ∧
    (processPendingMessages st now true).pendingMessages = rest ∧
    (processPendingMessages st now true).outbox =
      st.outbox ++ [pendingWire st.settings p] := by
  refine ⟨fun ok ok' => rfl, ?_, ?_⟩ <;>
    simp [processPendingMessages, hconn, hq, addMessage]

/-- Claim C2: enqueues made while disconnected append to the queue tail
in call order; after reconnection every drain invocation removes and
sends exactly the head entry, so `n` drains send precisely the first `n`
entries in strict FIFO submission order and leave the rest queued. -/
theorem C2_fifo_drain (st : AppState) (xs : List (Nat × String × String))
    (n now : Nat) (ok : Bool) (hoff : st.wsConnected = false) :
    (enqueueAll st xs).pendingMessages =
      st.pendingMessages ++ xs.map pendingOfAudio ∧
    (drainN now ok n
        { enqueueAll st xs with wsConnected := true }).pendingMessages =
      (st.pendingMessages ++ xs.map pendingOfAudio).drop n ∧
    (drainN now ok n { enqueueAll st xs with wsConnected := true }).outbox =
      st.outbox ++
        ((st.pendingMessages ++ xs.map pendingOfAudio).take n).map
          (pendingWire st.settings) := by
  obtain ⟨hp, hw, ho, hs⟩ := enqueueAll_offline xs st hoff
  obtain ⟨dp, dq, dw, ds⟩ := drain_connected now ok n
    { enqueueAll st xs with wsConnected := true } rfl
  refine ⟨hp, ?_, ?_⟩
  · rw [dp]; simp [hp]
  · rw [dq]; simp [hp, ho, hs]

/-- Witness for C2: two entries enqueued offline, one drain after
reconnection sends exactly the first and leaves the second. -/
theorem C2_witness :
    (enqueueAll appOfflineEx [(1, "A", "ha"), (2, "B", "hb")]).pendingMessages =
      appOfflineEx.pendingMessages ++
        [(1, "A", "ha"), (2, "B", "hb")].map pendingOfAudio ∧
    (drainN 10 true 1
        { enqueueAll appOfflineEx [(1, "A", "ha"), (2, "B", "hb")] with
          wsConnected := true }).pendingMessages =
      (appOfflineEx.pendingMessages ++
        [(1, "A", "ha"), (2, "B", "hb")].map pendingOfAudio).drop 1 ∧
    (drainN 10 true 1
        { enqueueAll appOfflineEx [(1, "A", "ha"), (2, "B", "hb")] with
          wsConnected := true }).outbox =
      appOfflineEx.outbox ++
        ((appOfflineEx.pendingMessages ++
          [(1, "A", "ha"), (2, "B", "hb")].map pendingOfAudio).take 1).map
          (pendingWire appOfflineEx.settings) :=
  C2_fifo_drain appOfflineEx [(1, "A", "ha"), (2, "B", "hb")] 1 10 true
    (by rfl)

/-- Counterexample to claim C1 as stated: an inbound non-pong message
(`aiResponse` at time 59000) does not refresh the liveness timestamp, and
the ping tick at 90000 — only 31000 time-units after that inbound message
— force-closes and reconnects anyway.  Under the claim, any inbound
message proves the link responsive, so no force-close may happen within
60000 time-units of it. -/
theorem C1_counterexample :
    (wsHandleMessage wsOpenEx (some "aiResponse") 59000).lastPingTime =
      some 1000 ∧
    (wsPingTick (wsHandleMessage wsOpenEx (some "aiResponse") 59000)
      90000).connected = false ∧
    (wsPingTick (wsHandleMessage wsOpenEx (some "aiResponse") 59000)
      90000).connecting = true ∧
    90000 - 59000 ≤ 60000 := by
  refine ⟨by rfl, by rfl, by rfl, by decide⟩

/-- Claim C1 (amended): while the socket is OPEN each 30-unit ping tick
sends exactly one ping; only an inbound pong refreshes the liveness
timestamp; a tick more than 60000 time-units after the liveness timestamp
force-closes and immediately starts reconnecting, and a tick within the
window leaves the connection as it was. -/
theorem C1_keepalive (st : WsState) (mt : Option String) (now lp : Nat)
    (u : String) :
    (st.socket = some .openS →
      (wsPingTick st now).sentFrames = st.sentFrames ++ [Frame.ping]) ∧
    ((wsHandleMessage st mt now).lastPingTime =
      if mt = some "pong" then some now else st.lastPingTime) ∧
    (st.socket = some .openS → st.lastPingTime = some lp → lp ≠ 0 →
      60000 < now - lp → st.url = some u →
      (wsPingTick st now).connected = false ∧
      (wsPingTick st now).connecting = true ∧
      (wsPingTick st now).socket = some .connectingS) ∧
    (st.socket = some .openS → st.lastPingTime = some lp →
      now - lp ≤ 60000 →
      (wsPingTick st now).connected = st.connected ∧
      (wsPingTick st now).socket = st.socket) := by
  have hcf : ∀ s : WsState, (wsConnect s).sentFrames = s.sentFrames := by
    intro s
    unfold wsConnect wsDisconnect
    split <;> rfl
  refine ⟨?_, ?_, ?_, ?_⟩
  · intro hopen
    cases hlp : st.lastPingTime with
    | none => simp [wsPingTick, hopen, hlp]
    | some lp' =>
      simp only [wsPingTick, hopen, hlp, if_true, reduceIte]
      split
      · rw [hcf]; rfl
      · rfl
  · cases mt with
    | none => simp [wsHandleMessage]
    | some t =>
      by_cases ht : t = "pong" <;> simp [wsHandleMessage, ht]
  · intro hopen hlp hne hstale hurl
    simp [wsPingTick, wsConnect, wsDisconnect, hopen, hlp, hne, hstale,
      hurl]
  · intro hopen hlp hfresh
    simp [wsPingTick, hopen, hlp, Nat.not_lt.mpr hfresh]

/-- Witness for C1 (amended) at the concrete open session: a stale tick
force-closes and reconnects, and a pong refreshes the timestamp. -/
theorem C1_witness :
    (wsPingTick wsOpenEx 70000).connected = false ∧
    (wsPingTick wsOpenEx 70000).connecting = true ∧
    (wsHandleMessage wsOpenEx (some "pong") 70000).lastPingTime =
      some 70000 := by
  have h := C1_keepalive wsOpenEx (some "pong") 70000 1000
    "wss://airassist-server.example.com/ws"
  have h3 := h.2.2.1 (by rfl) (by rfl) (by decide) (by decide) (by rfl)
  exact ⟨h3.1, h3.2.1, by simpa using h.2.1⟩

/-- Claim C4: over every sequence of connect/disconnect events starting
from an empty history, the device history is exactly the 10-truncated
most-recently-connected-first view of the successful connects — hence it
holds at most 10 entries with pairwise distinct ids, a successful connect
inserts or moves its device to the front with eviction beyond capacity,
and disconnects (and failed connects) never change it. -/
theorem C4_device_history (evts : List BtEvent) (st0 : BtState)
    (h0 : st0.previousDevices = []) :
    (btRun st0 evts).previousDevices =
      (mruOf (connectLog st0 evts).reverse).take 10 ∧
    (btRun st0 evts).previousDevices.length ≤ 10 ∧
    ((btRun st0 evts).previousDevices.map Device.id).Nodup ∧
    (∀ (st : BtState) (id : String) (ok : Bool),
      (disconnectFromDevice st id ok).previousDevices =
        st.previousDevices) ∧
    (∀ (st : BtState) (id : String) (ok : Bool) (e : String),
      (connectToDevice st id ok).2 = .error e →
      (connectToDevice st id ok).1.previousDevices =
        st.previousDevices) := by
  have hchar := btRun_mru evts st0 [] (by simpa [mruOf] using h0)
  rw [List.append_nil] at hchar
  refine ⟨hchar, ?_, ?_, disconnect_prev, ?_⟩
  · rw [hchar]
    exact List.length_take_le 10 _
  · rw [hchar]
    have hsub : List.Sublist
        (((mruOf (connectLog st0 evts).reverse).take 10).map Device.id)
        ((mruOf (connectLog st0 evts).reverse).map Device.id) :=
      (List.take_sublist 10 _).map Device.id
    exact hsub.nodup (mruOf_nodup _)
  · intro st id ok e he
    rcases connect_prev_cases st id ok with ⟨hprev, _⟩ | ⟨d, hok, _⟩
    · exact hprev
    · rw [he] at hok
      cases hok

/-- Witness for C4: one successful connect from the empty history. -/
theorem C4_witness :
    btEx.previousDevices = [] ∧
    (btRun btEx [BtEvent.connect "DE:AD:BE:EF:12:34" true]).previousDevices =
      (mruOf (connectLog btEx
        [BtEvent.connect "DE:AD:BE:EF:12:34" true]).reverse).take 10 ∧
    (btRun btEx
      [BtEvent.connect "DE:AD:BE:EF:12:34" true]).previousDevices.length ≤
      10 := by
  have h := C4_device_history [BtEvent.connect "DE:AD:BE:EF:12:34" true]
    btEx (by rfl)
  exact ⟨by rfl, h.1, h.2.1⟩

/-- Counterexample to claim C3 as stated: a session whose frames all stay
far below the threshold (energy 0 against threshold 10) for well over the
2000 ms inactivity duration fires the silence callback zero times — each
quiet frame re-arms the timer — contradicting "fires exactly once, never
zero". -/
theorem C3_counterexample :
    startSilenceDetectionFire 10 [(0, 0), (1000, 0), (2500, 0)] 4000 =
      none ∧
    (([(0, 0), (1000, 0), (2500, 0)] : List (Nat × Nat)).all
      (fun f => f.2 < 10)) = true ∧
    2000 ≤ 4000 := by
  refine ⟨by rfl, by decide, by decide⟩

/-- Claim C3 (amended): every incoming frame re-arms the 2000 ms
inactivity timer regardless of its energy — the threshold parameter and
the frame energies are never read, so the outcome depends only on frame
times — and the silence callback fires at most once per session, namely
2000 ms after the final frame, provided no earlier inter-frame gap
reached 2000 ms and the deadline precedes the manual stop; with such
continuous frames arriving the callback can fire zero times. -/
theorem C3_silence_timer (th1 th2 : Nat) (fr1 fr2 : List (Nat × Nat))
    (stopT t0 e0 : Nat) (rest : List (Nat × Nat)) :
    (fr1.map Prod.fst = fr2.map Prod.fst →
      startSilenceDetectionFire th1 fr1 stopT =
        startSilenceDetectionFire th2 fr2 stopT) ∧
    (List.Chain' (fun a b : Nat × Nat => b.1 < a.1 + 2000)
        ((t0, e0) :: rest) →
      startSilenceDetectionFire th1 ((t0, e0) :: rest) stopT =
        if lastDeadline 0 ((t0, e0) :: rest) < stopT then
          some (lastDeadline 0 ((t0, e0) :: rest))
        else none) := by
  constructor
  · intro h
    exact silenceFirstFire_times_only fr1 fr2 none stopT h
  · intro hchain
    have hh : ∀ g : Nat × Nat, rest.head? = some g → g.1 < t0 + 2000 := by
      intro g hg
      cases rest with
      | nil => simp at hg
      | cons g' r' =>
        rw [List.chain'_cons] at hchain
        simp only [List.head?_cons, Option.some.injEq] at hg
        rw [← hg]
        exact hchain.1
    have hstep :
        startSilenceDetectionFire th1 ((t0, e0) :: rest) stopT =
          silenceFirstFire (some (t0 + 2000)) rest stopT := rfl
    rw [hstep, silenceFirstFire_chain rest (t0 + 2000) stopT hh
      (List.Chain'.tail hchain), ← lastDeadline_cons 0 (t0, e0) rest]

/-- Witness for C3 (amended): energies do not matter, and a fully quiet
two-frame session fires exactly once, 2000 ms after its last frame. -/
theorem C3_witness :
    startSilenceDetectionFire 3 [(0, 5)] 9000 =
      startSilenceDetectionFire 7 [(0, 9)] 9000 ∧
    startSilenceDetectionFire 3 [(0, 0), (1000, 0)] 10000 =
      some 3000 := by
  have h := C3_silence_timer 3 7 [(0, 5)] [(0, 9)] 9000 0 0 [(1000, 0)]
  refine ⟨h.1 (by decide), ?_⟩
  have h2 := (C3_silence_timer 3 7 [(0, 5)] [(0, 9)] 10000 0 0
    [(1000, 0)]).2 (by norm_num [List.chain'_cons])
  simpa [lastDeadline] using h2

/-- Claim C7: the WAV container written by `convertPcmToWavBase64` is
self-describing and correct — parsing it back yields PCM format tag 1,
one channel, the capture sample rate 44100, 16 bits per sample, a payload
length equal to the PCM byte count and the original payload, so the
decoded clip has the same sample count (`pcm.length / 2` sixteen-bit
samples) and sample rate as were captured. -/
theorem C7_wav_roundtrip (pcm : List Nat)
    (h : pcm.length + 36 < 4294967296) :
    parseWav (convertPcmToWav pcm) =
      some { audioFormat := 1, numChannels := 1,
             sampleRate := sampleRateConst, bitsPerSample := 16,
             dataLen := pcm.length, payload := pcm } ∧
    (parseWav (convertPcmToWav pcm)).map wavSampleCount =
      some (pcm.length / 2) := by
  have hexp : convertPcmToWav pcm =
      82 :: 73 :: 70 :: 70 ::
      ((pcm.length + 36) % 256) :: ((pcm.length + 36) / 256 % 256) ::
      ((pcm.length + 36) / 65536 % 256) ::
      ((pcm.length + 36) / 16777216 % 256) ::
      87 :: 65 :: 86 :: 69 ::
      102 :: 109 :: 116 :: 32 ::
      16 :: 0 :: 0 :: 0 ::
      1 :: 0 :: 1 :: 0 ::
      68 :: 172 :: 0 :: 0 ::
      136 :: 88 :: 1 :: 0 ::
      2 :: 0 :: 16 :: 0 ::
      100 :: 97 :: 116 :: 97 ::
      (pcm.length % 256) :: (pcm.length / 256 % 256) ::
      (pcm.length / 65536 % 256) :: (pcm.length / 16777216 % 256) ::
      pcm := by
    simp [convertPcmToWav, intToByteArray, shortToByteArray, riffTag,
      waveTag, fmtTag, dataTag, sampleRateConst]
  have hmain : parseWav (convertPcmToWav pcm) =
      some { audioFormat := 1, numChannels := 1,
             sampleRate := sampleRateConst, bitsPerSample := 16,
             dataLen := pcm.length, payload := pcm } := by
    rw [hexp]
    simp only [parseWav, readU32LE, readU16LE, List.take_succ_cons,
      List.drop_succ_cons, List.drop_zero, List.take_zero]
    norm_num [riffTag, waveTag, fmtTag, dataTag, sampleRateConst]
    omega
  refine ⟨hmain, ?_⟩
  rw [hmain]
  simp [wavSampleCount]

/-- Witness for C7 at a concrete four-byte capture. -/
theorem C7_witness :
    ([1, 2, 3, 4] : List Nat).length + 36 < 4294967296 ∧
    parseWav (convertPcmToWav [1, 2, 3, 4]) =
      some { audioFormat := 1, numChannels := 1,
             sampleRate := sampleRateConst, bitsPerSample := 16,
             dataLen := 4, payload := [1, 2, 3, 4] } := by
  have h := C7_wav_roundtrip [1, 2, 3, 4] (by norm_num)
  exact ⟨by norm_num, by simpa using h.1⟩

/-- Witness for C5 (amended) at a concrete state. -/
theorem C5_witness :
    (processPendingMessages appConnEx 700 true).pendingMessages = [] ∧
    (processPendingMessages appConnEx 700 true).outbox =
      appConnEx.outbox ++ [pendingWire appConnEx.settings pendEx] := by
  have h := C5_failed_send_silently_dropped appConnEx 700 pendEx []
    (by rfl) (by rfl)
  exact ⟨h.2.1, h.2.2⟩

end AirAssist
